import Mathlib

namespace VSCodeSearch

/-!
Verification of the search-view controller (`searchView.ts`) and the
file-explorer command bindings (`fileCommands`-style module) of this
repository slice. The TypeScript code is shallowly embedded: stateful UI
methods become pure functions from an explicit environment/widget state to
a list of observable effects, and external collaborators (query builder,
file service, clipboard, editor service) become function parameters.
-/

/-! ## Explorer commands: copy path / revert (`part_000`) -/

/-- Effects observable from `resourcesToClipboard` and its callers. -/
inductive ClipEffect where
  | writeClipboard (text : String)
  | infoNotify (msg : String)
deriving Repr, DecidableEq

/-- Embedding of `resourcesToClipboard(resources, relative, ...)`:
if any resource is selected, join the labels with the platform line
delimiter and write to the clipboard; otherwise show an info notification.
`uriLabel r relative` stands for `labelService.getUriLabel(resource, { relative, noPrefix: true })`. -/
def resourcesToClipboard (isWindows : Bool) (uriLabel : String → Bool → String)
    (resources : List String) (relative : Bool) : List ClipEffect :=
  if resources.length ≠ 0 then
    let lineDelimiter := if isWindows then "\r\n" else "\n"
    let text := String.intercalate lineDelimiter (resources.map (fun r => uriLabel r relative))
    [ClipEffect.writeClipboard text]
  else
    [ClipEffect.infoNotify "Open a file first to copy its path"]

/-- Embedding of the `COPY_PATH_COMMAND_ID` handler: the multi-selected
resources are passed to `resourcesToClipboard` with `relative = false`. -/
def copyPathCommand (isWindows : Bool) (uriLabel : String → Bool → String)
    (selectedResources : List String) : List ClipEffect :=
  resourcesToClipboard isWindows uriLabel selectedResources false

/-- Embedding of the `COPY_RELATIVE_PATH_COMMAND_ID` handler: the
multi-selected resources are passed to `resourcesToClipboard` with
`relative = true`. -/
def copyRelativePathCommand (isWindows : Bool) (uriLabel : String → Bool → String)
    (selectedResources : List String) : List ClipEffect :=
  resourcesToClipboard isWindows uriLabel selectedResources true

/-- An editor identifier as consumed by the revert handler: its display
name (`editor.getName()`) and whether it is untitled (`editor.isUntitled()`). -/
structure EditorIdent where
  name : String
  isUntitled : Bool
deriving Repr, DecidableEq

/-- Effects observable from the `REVERT_FILE_COMMAND_ID` handler. -/
inductive RevertEffect where
  | revertCall (editors : List EditorIdent) (force : Bool)
  | errorNotify (msg : String)
deriving Repr, DecidableEq

/-- The error notification text of the revert handler:
`nls.localize('genericRevertError', "Failed to revert '{0}': {1}", names, toErrorMessage(error))`. -/
def genericRevertError (editors : List EditorIdent) (err : String) : String :=
  "Failed to revert '" ++ String.intercalate ", " (editors.map EditorIdent.name) ++ "': " ++ err

/-- Embedding of the `REVERT_FILE_COMMAND_ID` handler: filter the
multi-selected editors to those that are not untitled, revert them with
`force: true`; a failing revert is caught and reported as an error
notification naming the reverted editors.  `revert editors force` stands
for `editorService.revert(editors, { force: true })`, returning the error
message when it rejects. -/
def revertFileCommand (revert : List EditorIdent → Bool → Except String Unit)
    (selectedEditors : List EditorIdent) : List RevertEffect :=
  let editors := selectedEditors.filter (fun e => !e.isUntitled)
  match revert editors true with
  | Except.ok _ => [RevertEffect.revertCall editors true]
  | Except.error err =>
      [RevertEffect.revertCall editors true,
       RevertEffect.errorNotify (genericRevertError editors err)]

/-! ## Query validation (`SearchView.validateQuery`) -/

/-- A folder query inside a text query; `folder` stands for the folder
URI / its `fsPath`. -/
structure FolderQuery where
  folder : String
deriving Repr, DecidableEq

/-- The structured search request produced by the external query builder.
Only `folderQueries` is inspected by the view (`validateQuery`); the rest
of the builder's output is opaque and carried as `payload`. -/
structure TextQuery where
  folderQueries : List FolderQuery
  payload : Nat
deriving Repr, DecidableEq

/-- The rejection message of `validateQuery`:
`nls.localize('searchPathNotFoundError', "Search path not found: {0}", nonExistantPath)`. -/
def searchPathNotFoundMessage (path : String) : String :=
  "Search path not found: " ++ path

/-- Embedding of `SearchView.validateQuery`: keep exactly the folder
queries whose folder exists; resolve with them unless the query had folder
queries and none of them exists, in which case reject naming the first
folder's path.  `fsExists f` stands for `fileService.exists(fq.folder)`. -/
def validateQuery (fsExists : String → Bool) (query : TextQuery) : Except String TextQuery :=
  let existingFolderQueries := query.folderQueries.filter (fun fq => fsExists fq.folder)
  if query.folderQueries.length = 0 ∨ existingFolderQueries.length ≠ 0 then
    Except.ok { query with folderQueries := existingFolderQueries }
  else
    Except.error (searchPathNotFoundMessage ((query.folderQueries.headD ⟨""⟩).folder))

/-- A concrete selection for exercising the revert handler: one saveable
editor and one untitled editor. -/
def revertSelectionExample : List EditorIdent :=
  [⟨"a.ts", false⟩, ⟨"Untitled-1", true⟩]

/-- A concrete always-failing revert service. -/
def failingRevertService : List EditorIdent → Bool → Except String Unit :=
  fun _ _ => Except.error "disk gone"

/-- A concrete query with two folder queries, used to exercise
`validateQuery`. -/
def missingFoldersQuery : TextQuery :=
  { folderQueries := [⟨"/gone"⟩, ⟨"/also-gone"⟩], payload := 0 }

/-- A concrete file service on which no folder exists. -/
def noFolderExists : String → Bool := fun _ => false

/-! ## Query submission (`SearchView.onQueryChanged`) -/

/-- The constant `SearchView.MAX_TEXT_RESULTS`. -/
def MAX_TEXT_RESULTS : Nat := 10000

/-- The content pattern (`IPatternInfo`) built from the user-entered
values in `onQueryChanged`. -/
structure PatternInfo where
  pattern : String
  isRegExp : Bool
  isCaseSensitive : Bool
  isWordMatch : Bool
deriving Repr, DecidableEq

/-- The preview options inside `ITextQueryBuilderOptions`. -/
structure PreviewOptions where
  matchLines : Nat
  charsPerLine : Nat
deriving Repr, DecidableEq

/-- The `ITextQueryBuilderOptions` record built in `onQueryChanged`.
`none` for the two `disregard*` fields stands for the TS `undefined`
produced by `!useExcludesAndIgnoreFiles || undefined`. -/
structure TextQueryBuilderOptions where
  reason : String
  extraFileResources : List String
  maxResults : Nat
  disregardIgnoreFiles : Option Bool
  disregardExcludeSettings : Option Bool
  excludePattern : String
  includePattern : String
  previewOptions : PreviewOptions
  isSmartCase : Bool
  expandPatterns : Bool
deriving Repr, DecidableEq

/-- The widget / workspace values read at the start of `onQueryChanged`. -/
structure SearchWidgetState where
  inputValid : Bool
  searchValue : String
  isRegex : Bool
  isWholeWords : Bool
  isCaseSensitive : Bool
  excludeValue : String
  includeValue : String
  useExcludesAndIgnoreFiles : Bool
  workspaceFolders : List String
  workbenchEmpty : Bool
deriving Repr, DecidableEq

/-- The external collaborators consumed by `onQueryChanged`:
`queryBuilder.text` (which may throw, i.e. return `Except.error`),
`fileService.exists`, the `search.smartCase` configuration value, and
`getOutOfWorkspaceEditorResources`. -/
structure SearchEnv where
  builderText : PatternInfo → List String → TextQueryBuilderOptions → Except String TextQuery
  fsExists : String → Bool
  smartCase : Bool
  extraFileResources : List String

/-- Observable effects of the query-submission path. -/
inductive SearchEffect where
  | searchResultClear
  | showEmptyStage (forceHideMessages : Bool)
  | showSearchWithoutFolderMessage
  | searchWidgetClear
  | cancelSearch
  | updateActions
  | clearMessageArea
  | showSearchInputError (content : String)
  | queryBuilderText (content : PatternInfo) (folders : List String)
      (options : TextQueryBuilderOptions)
  | modelSearch (query : TextQuery)
  | focusSearchWidget
deriving Repr, DecidableEq

/-- Embedding of `SearchView.clearSearchResults`: clear the result model,
show the empty stage (force-hiding messages), in an empty workspace show
the search-without-folder message, clear the widget, cancel any running
search and update the actions. -/
def clearSearchResultsTrace (workbenchEmpty : Bool) : List SearchEffect :=
  [SearchEffect.searchResultClear, SearchEffect.showEmptyStage true] ++
  (if workbenchEmpty then [SearchEffect.showSearchWithoutFolderMessage] else []) ++
  [SearchEffect.searchWidgetClear, SearchEffect.cancelSearch, SearchEffect.updateActions]

/-- The `IPatternInfo` literal of `onQueryChanged`. -/
def mkContent (w : SearchWidgetState) : PatternInfo :=
  { pattern := w.searchValue
    isRegExp := w.isRegex
    isCaseSensitive := w.isCaseSensitive
    isWordMatch := w.isWholeWords }

/-- The `ITextQueryBuilderOptions` literal of `onQueryChanged`:
`maxResults` is `SearchView.MAX_TEXT_RESULTS`; `charsPerLine` is 10000
for a regex content pattern and 250 otherwise. -/
def mkQueryOptions (env : SearchEnv) (w : SearchWidgetState) : TextQueryBuilderOptions :=
  { reason := "searchView"
    extraFileResources := env.extraFileResources
    maxResults := MAX_TEXT_RESULTS
    disregardIgnoreFiles := if w.useExcludesAndIgnoreFiles then none else some true
    disregardExcludeSettings := if w.useExcludesAndIgnoreFiles then none else some true
    excludePattern := w.excludeValue
    includePattern := w.includeValue
    previewOptions := { matchLines := 1, charsPerLine := if w.isRegex then 10000 else 250 }
    isSmartCase := env.smartCase
    expandPatterns := true }

/-- Embedding of `onQueryTriggered` together with the queued `doSearch`,
up to the delegation point: any running search is cancelled and the match
computation is handed to `viewModel.search(query)`.  Search-history
bookkeeping and the progress UI of `doSearch` are not modelled as effects. -/
def onQueryTriggeredTrace (query : TextQuery) : List SearchEffect :=
  [SearchEffect.cancelSearch, SearchEffect.modelSearch query]

/-- Embedding of `SearchView.onQueryChanged`: nothing happens on an
invalid input box; an empty pattern clears results and the message area;
otherwise the query builder is consulted exactly once; a builder (or
validation) error shows the message on the search input and clears the
search result without starting a search; a validated query is handed to
the search model. -/
def onQueryChanged (env : SearchEnv) (w : SearchWidgetState) (preserveFocus : Bool) :
    List SearchEffect :=
  if !w.inputValid then []
  else if w.searchValue.length = 0 then
    clearSearchResultsTrace w.workbenchEmpty ++ [SearchEffect.clearMessageArea]
  else
    let content := mkContent w
    let options := mkQueryOptions env w
    match env.builderText content w.workspaceFolders options with
    | Except.error err =>
        [SearchEffect.queryBuilderText content w.workspaceFolders options,
         SearchEffect.showSearchInputError err, SearchEffect.searchResultClear]
    | Except.ok query =>
        SearchEffect.queryBuilderText content w.workspaceFolders options ::
        (match validateQuery env.fsExists query with
         | Except.error err =>
             [SearchEffect.showSearchInputError err, SearchEffect.searchResultClear]
         | Except.ok validated =>
             onQueryTriggeredTrace validated ++
             (if !preserveFocus then [SearchEffect.focusSearchWidget] else []))

/-- The query-builder invocations recorded in a trace. -/
def builderCalls (trace : List SearchEffect) :
    List (PatternInfo × List String × TextQueryBuilderOptions) :=
  trace.filterMap fun e => match e with
    | SearchEffect.queryBuilderText c f o => some (c, f, o)
    | _ => none

/-- The search-model invocations recorded in a trace. -/
def searchCalls (trace : List SearchEffect) : List TextQuery :=
  trace.filterMap fun e => match e with
    | SearchEffect.modelSearch q => some q
    | _ => none

/-- A concrete environment whose query builder succeeds deterministically. -/
def envOkExample : SearchEnv :=
  { builderText := fun _ _ _ => Except.ok { folderQueries := [⟨"/w"⟩], payload := 7 }
    fsExists := fun _ => true
    smartCase := false
    extraFileResources := [] }

/-- A concrete widget state with a valid, non-empty search pattern. -/
def widgetExample : SearchWidgetState :=
  { inputValid := true
    searchValue := "foo"
    isRegex := false
    isWholeWords := false
    isCaseSensitive := false
    excludeValue := ""
    includeValue := ""
    useExcludesAndIgnoreFiles := true
    workspaceFolders := ["/w"]
    workbenchEmpty := false }

/-- A concrete widget state with a valid but empty search pattern. -/
def emptyPatternWidget : SearchWidgetState :=
  { inputValid := true
    searchValue := ""
    isRegex := false
    isWholeWords := false
    isCaseSensitive := false
    excludeValue := ""
    includeValue := ""
    useExcludesAndIgnoreFiles := true
    workspaceFolders := ["/w"]
    workbenchEmpty := false }

/-! ## Search result model and tree rendering
(`createResultIterator` / `createFolderIterator` / `createFileIterator`) -/

/-- An editor range as used by `Match.range()`. -/
structure Range where
  startLineNumber : Nat
  startColumn : Nat
  endLineNumber : Nat
  endColumn : Nat
deriving Repr, DecidableEq

/-- A line match of the external search result model: its range and its
`replaceString`. -/
structure Match where
  range : Range
  replaceString : String
deriving Repr, DecidableEq

/-- A file match of the external search result model: its resource and
its (unsorted) array of line matches (`FileMatch.matches()` in the
source; `matches` is reserved in Lean, hence `matchList`). -/
structure FileMatch where
  resource : String
  matchList : List Match
deriving Repr, DecidableEq

/-- Modelled from the spec: `FileMatch.count()` of the external search
result model (the model "holding matched files/lines"), the number of
line matches of the file. -/
def FileMatch.count (fm : FileMatch) : Nat := fm.matchList.length

/-- A folder match of the external search result model: its resource and
its array of file matches. -/
structure FolderMatch where
  resource : String
  matchList : List FileMatch
deriving Repr, DecidableEq

/-- Modelled from the spec: `FolderMatch.isEmpty()` of the external
search result model — a folder match is empty when it holds no file
match. -/
def FolderMatch.isEmpty (fm : FolderMatch) : Bool := fm.matchList.isEmpty

/-- Stable insertion into a sorted list, used to model
`Array.prototype.sort` with a numeric comparator. -/
def insertSorted (le : α → α → Bool) (a : α) : List α → List α
  | [] => [a]
  | b :: bs => if le a b then a :: b :: bs else b :: insertSorted le a bs

/-- Stable sort by a numeric comparator (the model of `.sort(searchMatchComparer)`;
the comparator itself is an external collaborator and stays abstract). -/
def sortCmp (cmp : α → α → Int) (l : List α) : List α :=
  l.foldr (insertSorted (fun a b => decide (cmp a b ≤ 0))) []

/-- The `search.collapseResults` configuration value. -/
inductive CollapseResults where
  | auto
  | alwaysCollapse
  | alwaysExpand
deriving Repr, DecidableEq

/-- A rendered line-match tree element (`{ element: r }`). -/
structure LineNode where
  element : Match
deriving Repr, DecidableEq

/-- A rendered file-match tree element with its children and collapsed
state. -/
structure FileNode where
  element : FileMatch
  children : List LineNode
  collapsed : Option Bool
deriving Repr, DecidableEq

/-- A rendered folder-match tree element with its children. -/
structure FolderNode where
  element : FolderMatch
  children : List FileNode
deriving Repr, DecidableEq

/-- A top-level element of the rendered result tree: a folder match, or a
file match promoted to the top level. -/
inductive TopNode where
  | folderNode (n : FolderNode)
  | fileNode (n : FileNode)
deriving Repr, DecidableEq

/-- Embedding of `SearchView.createFileIterator`: the file's line matches
sorted by the comparer, each wrapped as a leaf element. -/
def createFileIterator (cmpMatch : Match → Match → Int) (fileMatch : FileMatch) :
    List LineNode :=
  (sortCmp cmpMatch fileMatch.matchList).map (fun r => { element := r })

/-- Embedding of `SearchView.createFolderIterator`: the folder's file
matches sorted by the comparer; each child carries the file iterator and,
when the node is not already in the tree (`nodeExists` false), a collapsed
flag from the `collapseResults` setting and the match count. -/
def createFolderIterator (cmpFile : FileMatch → FileMatch → Int)
    (cmpMatch : Match → Match → Int) (collapseResults : CollapseResults)
    (nodeExists : FileMatch → Bool) (folderMatch : FolderMatch) : List FileNode :=
  (sortCmp cmpFile folderMatch.matchList).map (fun fileMatch =>
    let children := createFileIterator cmpMatch fileMatch
    let collapsed : Option Bool :=
      if nodeExists fileMatch then none
      else some ((collapseResults == CollapseResults.alwaysCollapse) ||
        (decide (fileMatch.matchList.length > 10) &&
          (collapseResults != CollapseResults.alwaysExpand)))
    { element := fileMatch, children := children, collapsed := collapsed })

/-- Embedding of `SearchView.createResultIterator`: filter the model's
folder matches to the non-empty ones, sort them; with exactly one
non-empty folder match its file iterator is promoted to the top level,
otherwise each folder match becomes a top-level element with its folder
iterator as children. -/
def createResultIterator (cmpFolder : FolderMatch → FolderMatch → Int)
    (cmpFile : FileMatch → FileMatch → Int) (cmpMatch : Match → Match → Int)
    (collapseResults : CollapseResults) (nodeExists : FileMatch → Bool)
    (folderMatchesOfModel : List FolderMatch) : List TopNode :=
  let folderMatches :=
    sortCmp cmpFolder (folderMatchesOfModel.filter (fun fm => ! fm.isEmpty))
  if folderMatches.length = 1 then
    match folderMatches with
    | fm :: _ =>
        (createFolderIterator cmpFile cmpMatch collapseResults nodeExists fm).map
          TopNode.fileNode
    | [] => []
  else
    folderMatches.map (fun fm =>
      TopNode.folderNode
        ⟨fm, createFolderIterator cmpFile cmpMatch collapseResults nodeExists fm⟩)

/-- A comparer that considers everything equal (the comparer is external
and irrelevant to the structural claim). -/
def cmpZero {α : Type} : α → α → Int := fun _ _ => 0

/-- A concrete model: one non-empty folder match and one empty one. -/
def folderWithOneFile : FolderMatch :=
  { resource := "/a"
    matchList := [{ resource := "/a/f1.ts", matchList := [{ range := ⟨1, 1, 1, 2⟩, replaceString := "r" }] }] }

/-- A concrete empty folder match. -/
def emptyFolder : FolderMatch := { resource := "/b", matchList := [] }

/-! ## Tree / model synchronization across visibility
(`onSearchResultsChanged` / `onVisibilityChanged`) -/

/-- The synchronization-relevant view state: whether the view body is
visible and the `changedWhileHidden` flag. -/
structure ViewSyncState where
  visible : Bool
  changedWhileHidden : Bool
deriving Repr, DecidableEq

/-- The two events driving the synchronization: a search-result change
event (`searchResult.onChange`) and a body-visibility transition
(`onDidChangeBodyVisibility`). -/
inductive SyncEvent where
  | resultsChanged
  | visibilityChanged (visible : Bool)
deriving Repr, DecidableEq

/-- Embedding of `onSearchResultsChanged` and `onVisibilityChanged`: the
new state together with the number of `refreshAndUpdateCount` runs the
event caused. A change while visible refreshes immediately; a change
while hidden only sets `changedWhileHidden`; becoming visible with the
flag set runs the deferred refresh once and clears the flag. -/
def stepSync (s : ViewSyncState) : SyncEvent → ViewSyncState × Nat
  | SyncEvent.resultsChanged =>
      if s.visible then (s, 1)
      else ({ s with changedWhileHidden := true }, 0)
  | SyncEvent.visibilityChanged v =>
      if v then
        if s.changedWhileHidden then
          ({ visible := true, changedWhileHidden := false }, 1)
        else ({ s with visible := true }, 0)
      else ({ s with visible := false }, 0)

/-- Run a sequence of events, accumulating the total number of refreshes. -/
def runSync (s : ViewSyncState) : List SyncEvent → ViewSyncState × Nat
  | [] => (s, 0)
  | e :: es =>
      let (s', n) := stepSync s e
      let (s'', m) := runSync s' es
      (s'', n + m)

/-! ## Search UI state lifecycle (`SearchUIState`, `doSearch`, `getActions`) -/

/-- The search UI state enum (`SearchUIState` in the source). -/
inductive SearchUIState where
  | Idle
  | Searching
  | SlowSearch
deriving Repr, DecidableEq

/-- The state assignments performed during one `doSearch` run: the body
itself (`state = Searching`), the slow timer callback
(`state = SlowSearch`), and the two exits `onComplete` / `onError`
(`state = Idle`). -/
inductive SearchLifecycleEvent where
  | start
  | slowTimer
  | complete
  | searchError
deriving Repr, DecidableEq

/-- The delay of the slow-search timer (`setTimeout(..., 2000)`). -/
def slowTimerDelayMs : Nat := 2000

/-- Embedding of the state assignments of `doSearch`. -/
def stepUIState (_s : SearchUIState) : SearchLifecycleEvent → SearchUIState
  | SearchLifecycleEvent.start => SearchUIState.Searching
  | SearchLifecycleEvent.slowTimer => SearchUIState.SlowSearch
  | SearchLifecycleEvent.complete => SearchUIState.Idle
  | SearchLifecycleEvent.searchError => SearchUIState.Idle

/-- Run the assignments of a `doSearch` event trace from a given state. -/
def runUIState (s : SearchUIState) (events : List SearchLifecycleEvent) : SearchUIState :=
  events.foldl stepUIState s

/-- The possible event orders of one `doSearch` run: the body always runs
first; the slow timer fires at most once and only before completion,
because both `onComplete` and `onError` call `clearTimeout(slowTimer)`
synchronously before assigning `Idle`; the run ends in exactly one of
`onComplete` / `onError`. -/
def doSearchTraces : List (List SearchLifecycleEvent) :=
  [[SearchLifecycleEvent.start, SearchLifecycleEvent.complete],
   [SearchLifecycleEvent.start, SearchLifecycleEvent.searchError],
   [SearchLifecycleEvent.start, SearchLifecycleEvent.slowTimer, SearchLifecycleEvent.complete],
   [SearchLifecycleEvent.start, SearchLifecycleEvent.slowTimer, SearchLifecycleEvent.searchError]]

/-- Checks along a trace that every slow-timer event fires from the
`Searching` state. -/
def slowOnlyFromSearching (s : SearchUIState) : List SearchLifecycleEvent → Bool
  | [] => true
  | e :: es =>
      ((e != SearchLifecycleEvent.slowTimer) || (s == SearchUIState.Searching)) &&
      slowOnlyFromSearching (stepUIState s e) es

/-- The view's actions (`getActions` plus the fixed `this.actions` pair). -/
inductive ViewAction where
  | cancel
  | refresh
  | clearResults
  | collapseDeepest
deriving Repr, DecidableEq

/-- Embedding of `SearchView.getActions`: cancel during a slow search,
refresh otherwise, followed by the two fixed actions. -/
def getActions (s : SearchUIState) : List ViewAction :=
  [if s = SearchUIState.SlowSearch then ViewAction.cancel else ViewAction.refresh,
   ViewAction.clearResults, ViewAction.collapseDeepest]

/-! ## Editor navigation (`SearchView.open` / `getSelectionFrom`) -/

/-- A result element passed to `open`: a line match (together with its
parent file's resource, `element.parent().resource`) or a file match. -/
inductive FileMatchOrMatch where
  | matchElem (m : Match) (parentResource : String)
  | fileMatchElem (fm : FileMatch)
deriving Repr, DecidableEq

/-- Embedding of `SearchView.getSelectionFrom`: a `Match` element yields
itself; a `FileMatch` with `count() > 0` yields the last entry of its
(unsorted) matches array; with replace active and a non-empty view
replace string the selection starts at the match's start and extends on
that line by the length of the match's `replaceString`; otherwise it is
the match's range; with no match it is `undefined`. -/
def getSelectionFrom (replaceActive : Bool) (viewReplaceString : String)
    (element : FileMatchOrMatch) : Option Range :=
  let lineMatch : Option Match :=
    match element with
    | FileMatchOrMatch.matchElem m _ => some m
    | FileMatchOrMatch.fileMatchElem fm =>
        if fm.count > 0 then fm.matchList.getLast? else none
  match lineMatch with
  | some m =>
      if replaceActive && viewReplaceString != "" then
        some ⟨m.range.startLineNumber, m.range.startColumn,
              m.range.startLineNumber, m.range.startColumn + m.replaceString.length⟩
      else some m.range
  | none => none

/-- The arguments `open` passes to `editorService.openEditor`. -/
structure OpenEditorArgs where
  resource : String
  selection : Option Range
  revealIfVisible : Bool
deriving Repr, DecidableEq

/-- Embedding of `SearchView.open`: the editor is opened on the element's
resource with the selection computed by `getSelectionFrom`. -/
def openArgs (replaceActive : Bool) (viewReplaceString : String)
    (element : FileMatchOrMatch) : OpenEditorArgs :=
  { resource :=
      match element with
      | FileMatchOrMatch.matchElem _ parentResource => parentResource
      | FileMatchOrMatch.fileMatchElem fm => fm.resource
    selection := getSelectionFrom replaceActive viewReplaceString element
    revealIfVisible := true }

/-- A concrete match: range on line 3, columns 5–9, replace string of
length 2. -/
def matchExample : Match := { range := ⟨3, 5, 3, 9⟩, replaceString := "ab" }

/-- A concrete file match holding two matches. -/
def fileMatchExample : FileMatch :=
  { resource := "/a/f1.ts"
    matchList := [{ range := ⟨1, 1, 1, 2⟩, replaceString := "x" }, matchExample] }

/-! ## Theorems -/

/-- C6: copy-path / copy-relative-path: with a non-empty selection the
labels joined by the platform delimiter are written to the clipboard and
no notification is shown; with an empty selection an info notification is
shown and the clipboard is not written. -/
theorem copyPath_clipboard_or_notify (isWindows : Bool) (uriLabel : String → Bool → String)
    (selectedResources : List String) :
    (selectedResources ≠ [] →
      copyPathCommand isWindows uriLabel selectedResources =
        [ClipEffect.writeClipboard (String.intercalate (if isWindows then "\r\n" else "\n")
          (selectedResources.map (fun r => uriLabel r false)))] ∧
      copyRelativePathCommand isWindows uriLabel selectedResources =
        [ClipEffect.writeClipboard (String.intercalate (if isWindows then "\r\n" else "\n")
          (selectedResources.map (fun r => uriLabel r true)))]) ∧
    (selectedResources = [] →
      copyPathCommand isWindows uriLabel selectedResources =
        [ClipEffect.infoNotify "Open a file first to copy its path"] ∧
      copyRelativePathCommand isWindows uriLabel selectedResources =
        [ClipEffect.infoNotify "Open a file first to copy its path"]) := by
  constructor
  · intro hne
    have hlen : selectedResources.length ≠ 0 := by
      simpa [List.length_eq_zero] using hne
    constructor <;>
      simp [copyPathCommand, copyRelativePathCommand, resourcesToClipboard, hlen]
  · intro he
    subst he
    constructor <;>
      simp [copyPathCommand, copyRelativePathCommand, resourcesToClipboard]

/-- Witness for `copyPath_clipboard_or_notify` at a concrete selection. -/
theorem copyPath_clipboard_or_notify_witness :
    (([ "/a/x.ts", "/a/y.ts" ] : List String) ≠ [] →
      copyPathCommand false (fun r _ => r) ["/a/x.ts", "/a/y.ts"] =
        [ClipEffect.writeClipboard (String.intercalate "\n"
          ((["/a/x.ts", "/a/y.ts"] : List String).map (fun r => (fun (r : String) (_ : Bool) => r) r false)))] ∧
      copyRelativePathCommand false (fun r _ => r) ["/a/x.ts", "/a/y.ts"] =
        [ClipEffect.writeClipboard (String.intercalate "\n"
          ((["/a/x.ts", "/a/y.ts"] : List String).map (fun r => (fun (r : String) (_ : Bool) => r) r true)))]) ∧
    ((["/a/x.ts", "/a/y.ts"] : List String) = [] →
      copyPathCommand false (fun r _ => r) ["/a/x.ts", "/a/y.ts"] =
        [ClipEffect.infoNotify "Open a file first to copy its path"] ∧
      copyRelativePathCommand false (fun r _ => r) ["/a/x.ts", "/a/y.ts"] =
        [ClipEffect.infoNotify "Open a file first to copy its path"]) := by
  have h := copyPath_clipboard_or_notify false (fun r _ => r) ["/a/x.ts", "/a/y.ts"]
  simpa using h

/-- C7: the revert command reverts exactly the non-untitled multi-selected
editors with force; a failing revert additionally produces an error
notification naming those editors, and the handler is total (never
throws). -/
theorem revertFile_reverts_non_untitled (revert : List EditorIdent → Bool → Except String Unit)
    (selectedEditors : List EditorIdent) :
    ((revertFileCommand revert selectedEditors).head? =
      some (RevertEffect.revertCall (selectedEditors.filter (fun e => !e.isUntitled)) true)) ∧
    (revert (selectedEditors.filter (fun e => !e.isUntitled)) true = Except.ok () →
      revertFileCommand revert selectedEditors =
        [RevertEffect.revertCall (selectedEditors.filter (fun e => !e.isUntitled)) true]) ∧
    (∀ err, revert (selectedEditors.filter (fun e => !e.isUntitled)) true = Except.error err →
      revertFileCommand revert selectedEditors =
        [RevertEffect.revertCall (selectedEditors.filter (fun e => !e.isUntitled)) true,
         RevertEffect.errorNotify
           (genericRevertError (selectedEditors.filter (fun e => !e.isUntitled)) err)]) := by
  refine ⟨?_, ?_, ?_⟩
  · unfold revertFileCommand
    cases hrev : revert (selectedEditors.filter (fun e => !e.isUntitled)) true <;> simp [hrev]
  · intro h
    unfold revertFileCommand
    simp [h]
  · intro err h
    unfold revertFileCommand
    simp [h]

/-- Witness for `revertFile_reverts_non_untitled`: one untitled and one
file editor selected, revert failing. -/
theorem revertFile_reverts_non_untitled_witness :
    ((revertFileCommand failingRevertService revertSelectionExample).head? =
      some (RevertEffect.revertCall (revertSelectionExample.filter (fun e => !e.isUntitled)) true)) ∧
    (failingRevertService (revertSelectionExample.filter (fun e => !e.isUntitled)) true = Except.ok () →
      revertFileCommand failingRevertService revertSelectionExample =
        [RevertEffect.revertCall (revertSelectionExample.filter (fun e => !e.isUntitled)) true]) ∧
    (∀ err, failingRevertService (revertSelectionExample.filter (fun e => !e.isUntitled)) true = Except.error err →
      revertFileCommand failingRevertService revertSelectionExample =
        [RevertEffect.revertCall (revertSelectionExample.filter (fun e => !e.isUntitled)) true,
         RevertEffect.errorNotify
           (genericRevertError (revertSelectionExample.filter (fun e => !e.isUntitled)) err)]) :=
  revertFile_reverts_non_untitled failingRevertService revertSelectionExample

/-- C9: `validateQuery` resolves with the folder queries replaced by
exactly those whose folder exists, and rejects with the
"Search path not found" error naming the first folder's path precisely
when the query has folder queries and none of their folders exists. -/
theorem validateQuery_filters_and_rejects (fsExists : String → Bool) (query : TextQuery) :
    ((query.folderQueries = [] ∨ (query.folderQueries.filter (fun fq => fsExists fq.folder)) ≠ []) →
      validateQuery fsExists query =
        Except.ok { query with
          folderQueries := query.folderQueries.filter (fun fq => fsExists fq.folder) }) ∧
    (∀ fq0 rest, query.folderQueries = fq0 :: rest →
      query.folderQueries.filter (fun fq => fsExists fq.folder) = [] →
      validateQuery fsExists query =
        Except.error (searchPathNotFoundMessage fq0.folder)) ∧
    ((∃ msg, validateQuery fsExists query = Except.error msg) ↔
      (query.folderQueries ≠ [] ∧
        ∀ fq ∈ query.folderQueries, fsExists fq.folder = false)) := by
  refine ⟨?_, ?_, ?_⟩
  · intro h
    unfold validateQuery
    rcases h with h | h
    · simp [h]
    · have hlen : (query.folderQueries.filter (fun fq => fsExists fq.folder)).length ≠ 0 := by
        simpa [List.length_eq_zero] using h
      simp [hlen]
  · intro fq0 rest hcons hfilter
    unfold validateQuery
    rw [hcons] at hfilter ⊢
    simp [hfilter]
  · constructor
    · rintro ⟨msg, hmsg⟩
      simp only [validateQuery] at hmsg
      split at hmsg
      · exact absurd hmsg (by simp)
      · rename_i hcond
        push_neg at hcond
        obtain ⟨hne, hfil⟩ := hcond
        refine ⟨by simpa [← List.length_eq_zero] using hne, ?_⟩
        intro fq hfq
        by_contra hex
        have hmem : fq ∈ query.folderQueries.filter (fun fq => fsExists fq.folder) := by
          rw [List.mem_filter]
          exact ⟨hfq, by simpa [Bool.not_eq_false] using hex⟩
        have : (query.folderQueries.filter (fun fq => fsExists fq.folder)) = [] :=
          List.length_eq_zero.mp hfil
        simp [this] at hmem
    · rintro ⟨hne, hall⟩
      have hfilter : query.folderQueries.filter (fun fq => fsExists fq.folder) = [] := by
        rw [List.filter_eq_nil_iff]
        intro fq hfq
        simp [hall fq hfq]
      obtain ⟨fq0, rest, hcons⟩ := List.exists_cons_of_ne_nil hne
      refine ⟨searchPathNotFoundMessage fq0.folder, ?_⟩
      unfold validateQuery
      rw [hcons] at hfilter ⊢
      simp [hfilter]

/-- Witness for `validateQuery_filters_and_rejects`: two folder queries,
neither existing, so validation rejects naming the first path. -/
theorem validateQuery_filters_and_rejects_witness :
    ((missingFoldersQuery.folderQueries = [] ∨
      (missingFoldersQuery.folderQueries.filter (fun fq => noFolderExists fq.folder)) ≠ []) →
      validateQuery noFolderExists missingFoldersQuery =
        Except.ok { missingFoldersQuery with
          folderQueries := missingFoldersQuery.folderQueries.filter (fun fq => noFolderExists fq.folder) }) ∧
    (∀ fq0 rest, missingFoldersQuery.folderQueries = fq0 :: rest →
      missingFoldersQuery.folderQueries.filter (fun fq => noFolderExists fq.folder) = [] →
      validateQuery noFolderExists missingFoldersQuery =
        Except.error (searchPathNotFoundMessage fq0.folder)) ∧
    ((∃ msg, validateQuery noFolderExists missingFoldersQuery = Except.error msg) ↔
      (missingFoldersQuery.folderQueries ≠ [] ∧
        ∀ fq ∈ missingFoldersQuery.folderQueries, noFolderExists fq.folder = false)) :=
  validateQuery_filters_and_rejects noFolderExists missingFoldersQuery

/-- Unfolding of `onQueryChanged` on a valid, non-empty submission: the
trace starts with the single query-builder call and continues by case
analysis on the builder's and the validation's outcome. -/
theorem onQueryChanged_eq_branch (env : SearchEnv) (w : SearchWidgetState) (pf : Bool)
    (hvalid : w.inputValid = true) (hne : w.searchValue.length ≠ 0) :
    onQueryChanged env w pf =
      SearchEffect.queryBuilderText (mkContent w) w.workspaceFolders (mkQueryOptions env w) ::
      (match env.builderText (mkContent w) w.workspaceFolders (mkQueryOptions env w) with
       | Except.error err =>
           [SearchEffect.showSearchInputError err, SearchEffect.searchResultClear]
       | Except.ok query =>
         match validateQuery env.fsExists query with
         | Except.error err =>
             [SearchEffect.showSearchInputError err, SearchEffect.searchResultClear]
         | Except.ok validated =>
             onQueryTriggeredTrace validated ++
               (if !pf then [SearchEffect.focusSearchWidget] else [])) := by
  simp only [onQueryChanged, hvalid, Bool.not_true, Bool.false_eq_true, if_false, hne,
    ite_false]
  cases hb : env.builderText (mkContent w) w.workspaceFolders (mkQueryOptions env w) with
  | error err => simp
  | ok query =>
    cases hvq : validateQuery env.fsExists query with
    | error err => simp
    | ok validated => simp

/-- C1: for a valid input box and a non-empty pattern, the structured
search request is built by exactly one call to the query builder's `text`
method on the user-entered content pattern and options; a builder error is
shown on the search input and clears the search result with no search
started; otherwise the (validated) builder output is exactly what is
handed to the search model's `search`. -/
theorem onQueryChanged_delegates_to_builder_and_model (env : SearchEnv)
    (w : SearchWidgetState) (preserveFocus : Bool)
    (hvalid : w.inputValid = true) (hne : w.searchValue.length ≠ 0) :
    (builderCalls (onQueryChanged env w preserveFocus) =
      [(mkContent w, w.workspaceFolders, mkQueryOptions env w)]) ∧
    (∀ err, env.builderText (mkContent w) w.workspaceFolders (mkQueryOptions env w) =
        Except.error err →
      onQueryChanged env w preserveFocus =
        [SearchEffect.queryBuilderText (mkContent w) w.workspaceFolders (mkQueryOptions env w),
         SearchEffect.showSearchInputError err, SearchEffect.searchResultClear]) ∧
    (∀ query validated,
      env.builderText (mkContent w) w.workspaceFolders (mkQueryOptions env w) =
        Except.ok query →
      validateQuery env.fsExists query = Except.ok validated →
      searchCalls (onQueryChanged env w preserveFocus) = [validated]) := by
  refine ⟨?_, ?_, ?_⟩
  · rw [onQueryChanged_eq_branch env w preserveFocus hvalid hne]
    cases hb : env.builderText (mkContent w) w.workspaceFolders (mkQueryOptions env w) with
    | error err => simp [builderCalls]
    | ok query =>
      cases hvq : validateQuery env.fsExists query with
      | error err => simp [builderCalls, hvq]
      | ok validated =>
        cases preserveFocus <;> simp [builderCalls, onQueryTriggeredTrace, hvq]
  · intro err hb
    rw [onQueryChanged_eq_branch env w preserveFocus hvalid hne, hb]
  · intro query validated hb hvq
    rw [onQueryChanged_eq_branch env w preserveFocus hvalid hne]
    cases preserveFocus <;> simp [hb, hvq, searchCalls, onQueryTriggeredTrace]

/-- Witness for `onQueryChanged_delegates_to_builder_and_model`. -/
theorem onQueryChanged_delegates_to_builder_and_model_witness :
    (builderCalls (onQueryChanged envOkExample widgetExample false) =
      [(mkContent widgetExample, widgetExample.workspaceFolders,
        mkQueryOptions envOkExample widgetExample)]) ∧
    (∀ err, envOkExample.builderText (mkContent widgetExample)
        widgetExample.workspaceFolders (mkQueryOptions envOkExample widgetExample) =
        Except.error err →
      onQueryChanged envOkExample widgetExample false =
        [SearchEffect.queryBuilderText (mkContent widgetExample)
           widgetExample.workspaceFolders (mkQueryOptions envOkExample widgetExample),
         SearchEffect.showSearchInputError err, SearchEffect.searchResultClear]) ∧
    (∀ query validated,
      envOkExample.builderText (mkContent widgetExample)
        widgetExample.workspaceFolders (mkQueryOptions envOkExample widgetExample) =
        Except.ok query →
      validateQuery envOkExample.fsExists query = Except.ok validated →
      searchCalls (onQueryChanged envOkExample widgetExample false) = [validated]) :=
  onQueryChanged_delegates_to_builder_and_model envOkExample widgetExample false
    (by decide) (by decide)

/-- C10: with a valid input box and an empty pattern, `onQueryChanged`
clears the search results (including cancelling any running search),
clears the message area, and returns without consulting the query builder
or starting a search. -/
theorem onQueryChanged_empty_pattern_clears (env : SearchEnv)
    (w : SearchWidgetState) (preserveFocus : Bool)
    (hvalid : w.inputValid = true) (hzero : w.searchValue.length = 0) :
    (onQueryChanged env w preserveFocus =
      clearSearchResultsTrace w.workbenchEmpty ++ [SearchEffect.clearMessageArea]) ∧
    SearchEffect.searchResultClear ∈ onQueryChanged env w preserveFocus ∧
    SearchEffect.cancelSearch ∈ onQueryChanged env w preserveFocus ∧
    SearchEffect.clearMessageArea ∈ onQueryChanged env w preserveFocus ∧
    builderCalls (onQueryChanged env w preserveFocus) = [] ∧
    searchCalls (onQueryChanged env w preserveFocus) = [] := by
  have htrace : onQueryChanged env w preserveFocus =
      clearSearchResultsTrace w.workbenchEmpty ++ [SearchEffect.clearMessageArea] := by
    unfold onQueryChanged
    simp [hvalid, hzero]
  refine ⟨htrace, ?_, ?_, ?_, ?_, ?_⟩ <;>
    rw [htrace] <;>
    cases hwb : w.workbenchEmpty <;>
    simp [clearSearchResultsTrace, builderCalls, searchCalls]

/-- Witness for `onQueryChanged_empty_pattern_clears`. -/
theorem onQueryChanged_empty_pattern_clears_witness :
    (onQueryChanged envOkExample emptyPatternWidget false =
      clearSearchResultsTrace emptyPatternWidget.workbenchEmpty ++
        [SearchEffect.clearMessageArea]) ∧
    SearchEffect.searchResultClear ∈ onQueryChanged envOkExample emptyPatternWidget false ∧
    SearchEffect.cancelSearch ∈ onQueryChanged envOkExample emptyPatternWidget false ∧
    SearchEffect.clearMessageArea ∈ onQueryChanged envOkExample emptyPatternWidget false ∧
    builderCalls (onQueryChanged envOkExample emptyPatternWidget false) = [] ∧
    searchCalls (onQueryChanged envOkExample emptyPatternWidget false) = [] :=
  onQueryChanged_empty_pattern_clears envOkExample emptyPatternWidget false
    (by decide) (by decide)

/-- C8: every query-builder invocation the view makes carries
`maxResults = MAX_TEXT_RESULTS = 10000` and a preview `charsPerLine` of
10000 for a regex content pattern and 250 otherwise. -/
theorem builder_options_limits (env : SearchEnv) (w : SearchWidgetState)
    (preserveFocus : Bool) (c : PatternInfo) (folders : List String)
    (o : TextQueryBuilderOptions)
    (hmem : SearchEffect.queryBuilderText c folders o ∈ onQueryChanged env w preserveFocus) :
    o.maxResults = MAX_TEXT_RESULTS ∧ MAX_TEXT_RESULTS = 10000 ∧
    o.previewOptions.charsPerLine = (if c.isRegExp then 10000 else 250) ∧
    o.previewOptions.matchLines = 1 := by
  have hco : c = mkContent w ∧ o = mkQueryOptions env w := by
    by_cases hv : w.inputValid = true
    · by_cases hz : w.searchValue.length = 0
      · have htrace : onQueryChanged env w preserveFocus =
            clearSearchResultsTrace w.workbenchEmpty ++ [SearchEffect.clearMessageArea] := by
          unfold onQueryChanged
          simp [hv, hz]
        rw [htrace] at hmem
        cases hwb : w.workbenchEmpty <;>
          simp [clearSearchResultsTrace, hwb] at hmem
      · rw [onQueryChanged_eq_branch env w preserveFocus hv hz] at hmem
        cases hb : env.builderText (mkContent w) w.workspaceFolders (mkQueryOptions env w) with
        | error err =>
          simp only [hb] at hmem
          simp at hmem
          exact ⟨hmem.1, hmem.2.2⟩
        | ok query =>
          simp only [hb] at hmem
          cases hvq : validateQuery env.fsExists query with
          | error err =>
            simp only [hvq] at hmem
            simp at hmem
            exact ⟨hmem.1, hmem.2.2⟩
          | ok validated =>
            simp only [hvq] at hmem
            cases preserveFocus <;>
              simp [onQueryTriggeredTrace] at hmem <;>
              exact ⟨hmem.1, hmem.2.2⟩
    · have hv' : w.inputValid = false := by simpa using hv
      have htrace : onQueryChanged env w preserveFocus = [] := by
        unfold onQueryChanged
        simp [hv']
      rw [htrace] at hmem
      simp at hmem
  obtain ⟨hc, ho⟩ := hco
  subst hc; subst ho
  refine ⟨rfl, rfl, ?_, rfl⟩
  simp [mkQueryOptions, mkContent]

/-- Witness for `builder_options_limits`: the builder call recorded for
`widgetExample` carries the limits. -/
theorem builder_options_limits_witness :
    (mkQueryOptions envOkExample widgetExample).maxResults = MAX_TEXT_RESULTS ∧
    MAX_TEXT_RESULTS = 10000 ∧
    (mkQueryOptions envOkExample widgetExample).previewOptions.charsPerLine =
      (if (mkContent widgetExample).isRegExp then 10000 else 250) ∧
    (mkQueryOptions envOkExample widgetExample).previewOptions.matchLines = 1 :=
  builder_options_limits envOkExample widgetExample false
    (mkContent widgetExample) widgetExample.workspaceFolders
    (mkQueryOptions envOkExample widgetExample) (by decide)

/-- C2: the rendered tree is a function of the search result model: the
top level is the non-empty folder matches sorted by the comparer (each
with its folder iterator as children), except that a single non-empty
folder match has its file matches promoted to the top level; folder
children are the sorted file matches and file children the sorted line
matches. -/
theorem result_tree_from_model (cmpFolder : FolderMatch → FolderMatch → Int)
    (cmpFile : FileMatch → FileMatch → Int) (cmpMatch : Match → Match → Int)
    (collapseResults : CollapseResults) (nodeExists : FileMatch → Bool)
    (folderMatchesOfModel : List FolderMatch) :
    ((sortCmp cmpFolder (folderMatchesOfModel.filter (fun fm => ! fm.isEmpty))).length ≠ 1 →
      createResultIterator cmpFolder cmpFile cmpMatch collapseResults nodeExists
          folderMatchesOfModel =
        (sortCmp cmpFolder (folderMatchesOfModel.filter (fun fm => ! fm.isEmpty))).map
          (fun fm => TopNode.folderNode
            ⟨fm, createFolderIterator cmpFile cmpMatch collapseResults nodeExists fm⟩)) ∧
    (∀ fm, sortCmp cmpFolder (folderMatchesOfModel.filter (fun fm => ! fm.isEmpty)) = [fm] →
      createResultIterator cmpFolder cmpFile cmpMatch collapseResults nodeExists
          folderMatchesOfModel =
        (createFolderIterator cmpFile cmpMatch collapseResults nodeExists fm).map
          TopNode.fileNode) ∧
    (∀ fm, (createFolderIterator cmpFile cmpMatch collapseResults nodeExists fm).map
        FileNode.element = sortCmp cmpFile fm.matchList) ∧
    (∀ f, (createFileIterator cmpMatch f).map LineNode.element =
      sortCmp cmpMatch f.matchList) := by
  refine ⟨?_, ?_, ?_, ?_⟩
  · intro h
    simp only [createResultIterator]
    rw [if_neg h]
  · intro fm h
    simp only [createResultIterator]
    rw [h]
    simp
  · intro fm
    unfold createFolderIterator
    induction sortCmp cmpFile fm.matchList with
    | nil => rfl
    | cons x xs ih => simp [ih]
  · intro f
    unfold createFileIterator
    induction sortCmp cmpMatch f.matchList with
    | nil => rfl
    | cons x xs ih => simp [ih]

/-- Witness for `result_tree_from_model`: with one non-empty folder match
the file matches are promoted; with two they are not. -/
theorem result_tree_from_model_witness :
    (createResultIterator cmpZero cmpZero cmpZero CollapseResults.auto (fun _ => false)
        [folderWithOneFile, emptyFolder] =
      (createFolderIterator cmpZero cmpZero CollapseResults.auto (fun _ => false)
        folderWithOneFile).map TopNode.fileNode) ∧
    (createResultIterator cmpZero cmpZero cmpZero CollapseResults.auto (fun _ => false)
        [folderWithOneFile, folderWithOneFile] =
      (sortCmp cmpZero (([folderWithOneFile, folderWithOneFile] : List FolderMatch).filter
          (fun fm => ! fm.isEmpty))).map
        (fun fm => TopNode.folderNode
          ⟨fm, createFolderIterator cmpZero cmpZero CollapseResults.auto (fun _ => false) fm⟩)) :=
  ⟨(result_tree_from_model cmpZero cmpZero cmpZero CollapseResults.auto (fun _ => false)
      [folderWithOneFile, emptyFolder]).2.1 folderWithOneFile (by decide),
   (result_tree_from_model cmpZero cmpZero cmpZero CollapseResults.auto (fun _ => false)
      [folderWithOneFile, folderWithOneFile]).1 (by decide)⟩

/-- C3: result-change events refresh immediately when visible and only
set `changedWhileHidden` when hidden; becoming visible runs the deferred
refresh exactly once and clears the flag (and does nothing when the flag
is clear); any hidden burst of changes followed by becoming visible
yields exactly one refresh. -/
theorem sync_refresh_discipline (s : ViewSyncState) (n : Nat) :
    (s.visible = true → stepSync s SyncEvent.resultsChanged = (s, 1)) ∧
    (s.visible = false → stepSync s SyncEvent.resultsChanged =
      ({ s with changedWhileHidden := true }, 0)) ∧
    (s.changedWhileHidden = true → stepSync s (SyncEvent.visibilityChanged true) =
      ({ visible := true, changedWhileHidden := false }, 1)) ∧
    (s.changedWhileHidden = false → stepSync s (SyncEvent.visibilityChanged true) =
      ({ s with visible := true }, 0)) ∧
    (1 ≤ n → runSync { visible := false, changedWhileHidden := false }
      (List.replicate n SyncEvent.resultsChanged ++ [SyncEvent.visibilityChanged true]) =
      ({ visible := true, changedWhileHidden := false }, 1)) := by
  refine ⟨?_, ?_, ?_, ?_, ?_⟩
  · intro h; simp [stepSync, h]
  · intro h; simp [stepSync, h]
  · intro h; simp [stepSync, h]
  · intro h; simp [stepSync, h]
  · intro hn
    obtain ⟨m, rfl⟩ : ∃ m, n = m + 1 := ⟨n - 1, by omega⟩
    have hrest : ∀ k, runSync { visible := false, changedWhileHidden := true }
        (List.replicate k SyncEvent.resultsChanged ++ [SyncEvent.visibilityChanged true]) =
        ({ visible := true, changedWhileHidden := false }, 1) := by
      intro k
      induction k with
      | zero => simp [runSync, stepSync]
      | succ k ih => simp [List.replicate_succ, runSync, stepSync, ih]
    simp [List.replicate_succ, runSync, stepSync, hrest m]

/-- Witness for `sync_refresh_discipline` at a hidden state with the flag
set and a burst of three hidden changes. -/
theorem sync_refresh_discipline_witness :
    (({ visible := false, changedWhileHidden := true } : ViewSyncState).visible = true →
      stepSync { visible := false, changedWhileHidden := true } SyncEvent.resultsChanged =
        ({ visible := false, changedWhileHidden := true }, 1)) ∧
    (({ visible := false, changedWhileHidden := true } : ViewSyncState).visible = false →
      stepSync { visible := false, changedWhileHidden := true } SyncEvent.resultsChanged =
        ({ ({ visible := false, changedWhileHidden := true } : ViewSyncState) with
            changedWhileHidden := true }, 0)) ∧
    (({ visible := false, changedWhileHidden := true } : ViewSyncState).changedWhileHidden = true →
      stepSync { visible := false, changedWhileHidden := true } (SyncEvent.visibilityChanged true) =
        ({ visible := true, changedWhileHidden := false }, 1)) ∧
    (({ visible := false, changedWhileHidden := true } : ViewSyncState).changedWhileHidden = false →
      stepSync { visible := false, changedWhileHidden := true } (SyncEvent.visibilityChanged true) =
        ({ ({ visible := false, changedWhileHidden := true } : ViewSyncState) with
            visible := true }, 0)) ∧
    (1 ≤ 3 → runSync { visible := false, changedWhileHidden := false }
      (List.replicate 3 SyncEvent.resultsChanged ++ [SyncEvent.visibilityChanged true]) =
      ({ visible := true, changedWhileHidden := false }, 1)) :=
  sync_refresh_discipline { visible := false, changedWhileHidden := true } 3

/-- C4: the search lifecycle: `slowTimerDelayMs` is 2000; every `doSearch`
trace starts by assigning `Searching`, its slow-timer event (if any) fires
from `Searching`, and it ends in `Idle` from any initial state; the action
set contains cancel exactly in `SlowSearch` and refresh otherwise. -/
theorem search_ui_lifecycle :
    slowTimerDelayMs = 2000 ∧
    (∀ tr ∈ doSearchTraces,
      tr.head? = some SearchLifecycleEvent.start ∧
      (∀ s, runUIState s tr = SearchUIState.Idle) ∧
      (∀ s, slowOnlyFromSearching s tr = true)) ∧
    (∀ s, (ViewAction.cancel ∈ getActions s ↔ s = SearchUIState.SlowSearch) ∧
      (ViewAction.refresh ∈ getActions s ↔ ¬ s = SearchUIState.SlowSearch)) := by
  refine ⟨rfl, ?_, ?_⟩
  · intro tr htr
    simp only [doSearchTraces, List.mem_cons, List.mem_singleton, List.not_mem_nil,
      or_false] at htr
    rcases htr with rfl | rfl | rfl | rfl <;>
      refine ⟨rfl, ?_, ?_⟩ <;> intro s <;> cases s <;> decide
  · intro s
    cases s <;> constructor <;> decide

/-- Witness for `search_ui_lifecycle`: the slow trace ending in
completion satisfies the lifecycle. -/
theorem search_ui_lifecycle_witness :
    ([SearchLifecycleEvent.start, SearchLifecycleEvent.slowTimer,
        SearchLifecycleEvent.complete] : List SearchLifecycleEvent).head? =
      some SearchLifecycleEvent.start ∧
    (∀ s, runUIState s [SearchLifecycleEvent.start, SearchLifecycleEvent.slowTimer,
        SearchLifecycleEvent.complete] = SearchUIState.Idle) ∧
    (∀ s, slowOnlyFromSearching s [SearchLifecycleEvent.start,
        SearchLifecycleEvent.slowTimer, SearchLifecycleEvent.complete] = true) :=
  search_ui_lifecycle.2.1
    [SearchLifecycleEvent.start, SearchLifecycleEvent.slowTimer,
     SearchLifecycleEvent.complete] (by decide)

/-- C5: the opened editor's selection is computed from the element: a
match yields its own range; a file match with at least one match yields
the last entry of its unsorted matches array; with replace active and a
non-empty replace string the selection starts at the match's start and
extends on the same line by the length of the match's replace string. -/
theorem open_selection_from_element (replaceActive : Bool) (viewReplaceString : String)
    (element : FileMatchOrMatch) :
    ((openArgs replaceActive viewReplaceString element).selection =
      getSelectionFrom replaceActive viewReplaceString element) ∧
    (∀ m pr, element = FileMatchOrMatch.matchElem m pr →
      (replaceActive = false ∨ viewReplaceString = "") →
      getSelectionFrom replaceActive viewReplaceString element = some m.range) ∧
    (∀ m pr, element = FileMatchOrMatch.matchElem m pr →
      replaceActive = true → viewReplaceString ≠ "" →
      getSelectionFrom replaceActive viewReplaceString element =
        some ⟨m.range.startLineNumber, m.range.startColumn,
              m.range.startLineNumber, m.range.startColumn + m.replaceString.length⟩) ∧
    (∀ fm m, element = FileMatchOrMatch.fileMatchElem fm →
      fm.matchList.getLast? = some m →
      getSelectionFrom replaceActive viewReplaceString element =
        getSelectionFrom replaceActive viewReplaceString
          (FileMatchOrMatch.matchElem m fm.resource)) ∧
    (∀ fm, element = FileMatchOrMatch.fileMatchElem fm → fm.count = 0 →
      getSelectionFrom replaceActive viewReplaceString element = none) := by
  refine ⟨rfl, ?_, ?_, ?_, ?_⟩
  · rintro m pr rfl h
    rcases h with h | h <;> simp [getSelectionFrom, h]
  · rintro m pr rfl hra hrs
    simp [getSelectionFrom, hra, hrs]
  · rintro fm m rfl hlast
    have hne : fm.matchList ≠ [] := by
      intro h0
      rw [h0] at hlast
      simp at hlast
    have hcount : fm.count > 0 := by
      simpa [FileMatch.count, List.length_pos] using hne
    simp [getSelectionFrom, hcount, hlast]
  · rintro fm rfl hcount
    simp [getSelectionFrom, hcount]

/-- Witness for `open_selection_from_element`: replace active with a
non-empty replace string on the file match above. -/
theorem open_selection_from_element_witness :
    ((openArgs true "xyz" (FileMatchOrMatch.fileMatchElem fileMatchExample)).selection =
      getSelectionFrom true "xyz" (FileMatchOrMatch.fileMatchElem fileMatchExample)) ∧
    (∀ m pr, FileMatchOrMatch.fileMatchElem fileMatchExample = FileMatchOrMatch.matchElem m pr →
      (true = false ∨ "xyz" = "") →
      getSelectionFrom true "xyz" (FileMatchOrMatch.fileMatchElem fileMatchExample) = some m.range) ∧
    (∀ m pr, FileMatchOrMatch.fileMatchElem fileMatchExample = FileMatchOrMatch.matchElem m pr →
      true = true → "xyz" ≠ "" →
      getSelectionFrom true "xyz" (FileMatchOrMatch.fileMatchElem fileMatchExample) =
        some ⟨m.range.startLineNumber, m.range.startColumn,
              m.range.startLineNumber, m.range.startColumn + m.replaceString.length⟩) ∧
    (∀ fm m, FileMatchOrMatch.fileMatchElem fileMatchExample = FileMatchOrMatch.fileMatchElem fm →
      fm.matchList.getLast? = some m →
      getSelectionFrom true "xyz" (FileMatchOrMatch.fileMatchElem fileMatchExample) =
        getSelectionFrom true "xyz" (FileMatchOrMatch.matchElem m fm.resource)) ∧
    (∀ fm, FileMatchOrMatch.fileMatchElem fileMatchExample = FileMatchOrMatch.fileMatchElem fm →
      fm.count = 0 →
      getSelectionFrom true "xyz" (FileMatchOrMatch.fileMatchElem fileMatchExample) = none) :=
  open_selection_from_element true "xyz" (FileMatchOrMatch.fileMatchElem fileMatchExample)

end VSCodeSearch
